import Mathlib

/-!
Shallow embedding of the Ball-Game repository's physics core.

Part 1 embeds `src/utils/Quadtree.js` over exact rational coordinates
(the quadtree performs only field arithmetic and comparisons, so every
operation is computable).  Part 2 embeds `src/utils/Vector2D.js`,
`src/main.js` (PhysicsSystem), `src/entities/Ball.js` and the engine's
update loop over the reals, with `Math.sqrt` modelled by `Real.sqrt`.
-/

/-! ## Part 1: Quadtree over ℚ -/

/-- A point, as read through `object.position.x` / `object.position.y`. -/
structure QPos where
  x : ℚ
  y : ℚ
deriving DecidableEq

/-- An object as consumed by the quadtree: it exposes `position` and `size`
(the circle radius).  The `id` stands for the JS object identity used by
`current !== object` in `query`. -/
structure QObj where
  id : ℕ
  position : QPos
  size : ℚ
deriving DecidableEq

/-- Node bounds `{x, y, width, height}`. -/
structure Rect where
  x : ℚ
  y : ℚ
  width : ℚ
  height : ℚ
deriving DecidableEq

/-- `Quadtree.contains` (Quadtree.js lines 112-119): the object's AABB lies
wholly inside the bounds. -/
def rectContains (r : Rect) (o : QObj) : Bool :=
  decide (o.position.x - o.size ≥ r.x) &&
  decide (o.position.x + o.size ≤ r.x + r.width) &&
  decide (o.position.y - o.size ≥ r.y) &&
  decide (o.position.y + o.size ≤ r.y + r.height)

/-- `Quadtree.intersects` (Quadtree.js lines 126-133): the object's AABB
overlaps the bounds (negated separating-axis test). -/
def rectIntersects (r : Rect) (o : QObj) : Bool :=
  !(decide (o.position.x - o.size > r.x + r.width) ||
    decide (o.position.x + o.size < r.x) ||
    decide (o.position.y - o.size > r.y + r.height) ||
    decide (o.position.y + o.size < r.y))

/-- A quadtree node: `bounds`, `capacity`, `maxDepth`, `depth`, the stored
`objects`, the `divided` flag, and the `children` list (empty until
subdivision, then NE/NW/SW/SE in the constructor order of `subdivide`). -/
inductive Quadtree where
  | node (bounds : Rect) (capacity : ℕ) (maxDepth : ℕ) (depth : ℕ)
      (objects : List QObj) (divided : Bool) (children : List Quadtree)

/-- The bounds of a node. -/
def Quadtree.boundsOf : Quadtree → Rect
  | .node b _ _ _ _ _ _ => b

/-- The objects stored directly in a node. -/
def Quadtree.objectsOf : Quadtree → List QObj
  | .node _ _ _ _ objs _ _ => objs

/-- The children of a node. -/
def Quadtree.childrenOf : Quadtree → List Quadtree
  | .node _ _ _ _ _ _ ch => ch

/-- The `divided` flag of a node. -/
def Quadtree.dividedOf : Quadtree → Bool
  | .node _ _ _ _ _ d _ => d

/-- `Quadtree.contains` on a node. -/
def Quadtree.containsO (t : Quadtree) (o : QObj) : Bool :=
  rectContains t.boundsOf o

/-- `Quadtree.intersects` on a node. -/
def Quadtree.intersectsO (t : Quadtree) (o : QObj) : Bool :=
  rectIntersects t.boundsOf o

/-- The four fresh children built by `subdivide` (Quadtree.js lines 25-84),
in source order NE, NW, SW, SE, each at `depth + 1`. -/
def mkChildren (b : Rect) (cap md d : ℕ) : List Quadtree :=
  let hw := b.width / 2
  let hh := b.height / 2
  [ .node ⟨b.x + hw, b.y, hw, hh⟩ cap md (d + 1) [] false []
  , .node ⟨b.x, b.y, hw, hh⟩ cap md (d + 1) [] false []
  , .node ⟨b.x, b.y + hh, hw, hh⟩ cap md (d + 1) [] false []
  , .node ⟨b.x + hw, b.y + hh, hw, hh⟩ cap md (d + 1) [] false [] ]

/-- `Quadtree.insert` (Quadtree.js lines 140-165), with a fuel argument for
termination (the source terminates because children sit at `depth + 1` and
the `depth >= maxDepth` guard stops recursion; any `fuel > maxDepth - depth`
makes the fuel case unreachable).  The body of `insertToChildren`
(Quadtree.js lines 99-105) — insert into every child that `contains` the
object — appears inlined twice, once for the redistribution inside
`subdivide` (lines 84-92) and once for the final call.  The second component
is the JS return value: `some true` / `some false` for the explicit
`return true/false` statements, and `none` for the final
`return this.insertToChildren(object)`, which returns `undefined` because
`insertToChildren` has no return statement. -/
def insertStep (rec : Quadtree → QObj → Quadtree × Option Bool)
    (t : Quadtree) (o : QObj) : Quadtree × Option Bool :=
  match t with
  | .node b cap md d objs div ch =>
    if rectIntersects b o = false then
      (.node b cap md d objs div ch, some false)
    else if div = false ∧ objs.length < cap then
      (.node b cap md d (objs ++ [o]) div ch, some true)
    else if md ≤ d then
      (.node b cap md d (objs ++ [o]) div ch, some true)
    else
      -- subdivide if needed (Quadtree.js lines 159-161, 84-92):
      -- build children, redistribute the held objects, empty the list
      let insCh : List Quadtree → QObj → List Quadtree := fun cs o' =>
        cs.map (fun c => if c.containsO o' then (rec c o').1 else c)
      let t' : Quadtree :=
        if div = false then
          .node b cap md d [] true (objs.foldl insCh (mkChildren b cap md d))
        else
          .node b cap md d objs div ch
      -- `return this.insertToChildren(object)` : undefined
      (.node b cap md d t'.objectsOf true (insCh t'.childrenOf o), none)

/-- Tie the recursive knot of `insertStep` with fuel. -/
def insertF : ℕ → Quadtree → QObj → Quadtree × Option Bool
  | 0, t, _ => (t, none)
  | f + 1, t, o => insertStep (insertF f) t o

/-- `Quadtree.insertToChildren` (Quadtree.js lines 99-105) as a standalone
function (the same expression that appears inlined in `insertF`). -/
def insertToChildrenF (fuel : ℕ) (cs : List Quadtree) (o : QObj) : List Quadtree :=
  cs.map (fun c => if c.containsO o then (insertF fuel c o).1 else c)

/-- `Quadtree.query` (Quadtree.js lines 173-194), fuelled like `insertF`.
Returns the accumulated objects found: nothing when the query object does not
intersect the bounds; otherwise this node's objects other than the query
object itself, followed by the children's results when divided. -/
def queryStep (rec : Quadtree → QObj → List QObj) (t : Quadtree) (o : QObj) :
    List QObj :=
  match t with
  | .node b _ _ _ objs div ch =>
    if rectIntersects b o = false then []
    else
      (objs.filter (fun c => c ≠ o)) ++
        (if div then ch.flatMap (fun c => rec c o) else [])

/-- Tie the recursive knot of `queryStep` with fuel. -/
def queryF : ℕ → Quadtree → QObj → List QObj
  | 0, _, _ => []
  | f + 1, t, o => queryStep (queryF f) t o

/-- Every object stored anywhere in the subtree, to any depth below the
fuel. -/
def allObjectsStep (rec : Quadtree → List QObj) (t : Quadtree) : List QObj :=
  match t with
  | .node _ _ _ _ objs _ ch => objs ++ ch.flatMap (fun c => rec c)

/-- Tie the recursive knot of `allObjectsStep` with fuel. -/
def allObjectsF : ℕ → Quadtree → List QObj
  | 0, _ => []
  | f + 1, t => allObjectsStep (allObjectsF f) t

/-- True circle-vs-AABB overlap, the geometric notion used by the coverage
claim: the circle of `c` meets the axis-aligned bounding square of `q`
(squared distance from the circle's center to the closest point of the box is
below the squared radius). -/
def circleOverlapsAABB (c : QObj) (q : QObj) : Bool :=
  let x1 := q.position.x - q.size
  let x2 := q.position.x + q.size
  let y1 := q.position.y - q.size
  let y2 := q.position.y + q.size
  let nx := max x1 (min c.position.x x2)
  let ny := max y1 (min c.position.y y2)
  decide ((c.position.x - nx) ^ 2 + (c.position.y - ny) ^ 2 < c.size ^ 2)

/-! Concrete quadtree scenario: root covering the arena `(0,0)–(100,100)`,
capacity 1, max depth 5.  `objB` straddles the vertical mid-line `x = 50`;
`objA` fits inside the NW quadrant; `objC` is a later query body sitting
exactly on `objB`. -/

/-- Empty root node covering the arena. -/
def rootQT : Quadtree := .node ⟨0, 0, 100, 100⟩ 1 5 0 [] false []

/-- Body straddling the `x = 50` child boundary. -/
def objB : QObj := ⟨1, ⟨50, 25⟩, 5⟩

/-- Body wholly inside the NW quadrant. -/
def objA : QObj := ⟨2, ⟨25, 25⟩, 5⟩

/-- Query body at the same place as `objB`. -/
def objC : QObj := ⟨3, ⟨50, 25⟩, 5⟩

/-- Body straddling the `x = 50` boundary between the SW and SE quadrants. -/
def objD : QObj := ⟨4, ⟨50, 75⟩, 5⟩

/-- Tree after inserting `objB` (succeeds: leaf with room). -/
def qtAfterB : Quadtree := (insertF 8 rootQT objB).1

/-- Tree after then inserting `objA` (triggers subdivision of the root,
redistributing `objB`). -/
def qtAfterBA : Quadtree := (insertF 8 qtAfterB objA).1

/-! ## Part 2: Vector2D, Ball, PhysicsSystem and Engine over ℝ -/

noncomputable section
open Classical

/-- `Vector2D` (Vector2D.js): a pair of JS numbers, modelled as reals. -/
structure Vector2D where
  x : ℝ
  y : ℝ

/-- `Vector2D.add` (functional form of the in-place mutation). -/
def Vector2D.add (v w : Vector2D) : Vector2D := ⟨v.x + w.x, v.y + w.y⟩

/-- `Vector2D.subtract`. -/
def Vector2D.subtract (v w : Vector2D) : Vector2D := ⟨v.x - w.x, v.y - w.y⟩

/-- `Vector2D.multiply` by a scalar. -/
def Vector2D.multiply (v : Vector2D) (scalar : ℝ) : Vector2D :=
  ⟨v.x * scalar, v.y * scalar⟩

/-- The component-wise division performed by `Vector2D.divide` once the
zero-scalar guard has passed. -/
def Vector2D.divideComponents (v : Vector2D) (scalar : ℝ) : Vector2D :=
  ⟨v.x / scalar, v.y / scalar⟩

/-- `Vector2D.divide` (Vector2D.js lines 278-285): throws on an exactly-zero
scalar, otherwise divides both components.  The thrown error precedes any
mutation, so in the error case the receiver keeps its components. -/
def Vector2D.divide (v : Vector2D) (scalar : ℝ) : Except String Vector2D :=
  if scalar = 0 then Except.error "Cannot divide vector by zero"
  else Except.ok (v.divideComponents scalar)

/-- `Vector2D.magnitude`, with `Math.sqrt` modelled by `Real.sqrt`. -/
def Vector2D.magnitude (v : Vector2D) : ℝ := Real.sqrt (v.x * v.x + v.y * v.y)

/-- `Vector2D.magnitudeSquared`. -/
def Vector2D.magnitudeSquared (v : Vector2D) : ℝ := v.x * v.x + v.y * v.y

/-- `Vector2D.normalize`: divides by the magnitude only when it is `> 0`
(never reaches the `divide` error branch). -/
def Vector2D.normalize (v : Vector2D) : Vector2D :=
  if v.magnitude > 0 then v.divideComponents v.magnitude else v

/-- `Vector2D.dot`. -/
def Vector2D.dot (v w : Vector2D) : ℝ := v.x * w.x + v.y * w.y

/-- `Vector2D.distance`. -/
def Vector2D.distance (v w : Vector2D) : ℝ :=
  Real.sqrt ((v.x - w.x) * (v.x - w.x) + (v.y - w.y) * (v.y - w.y))

/-- `Vector2D.limit` (squared-magnitude fast path, rescale otherwise). -/
def Vector2D.limit (v : Vector2D) (mx : ℝ) : Vector2D :=
  if v.magnitudeSquared > mx * mx then (v.normalize).multiply mx else v

/-- `Config.physics.limits.maxVelocity` (Config.js). -/
def maxVelocityConfig : ℝ := 500

/-- The `Ball` entity as consumed by the physics core (Ball.js constructor):
`size` is the radius, `mass = size * size` at construction, `isFrozen`
excludes the ball from integration. -/
structure Ball where
  id : ℕ
  position : Vector2D
  velocity : Vector2D
  acceleration : Vector2D
  size : ℝ
  mass : ℝ
  gravity : ℝ
  isFrozen : Bool

/-- `Ball.update` (Ball.js lines 63-89): skip when frozen; reapply gravity to
`acceleration.y`; integrate velocity; clamp it; integrate position; reset
acceleration. -/
def Ball.update (b : Ball) (deltaTime : ℝ) : Ball :=
  if b.isFrozen then b
  else
    let b1 := if b.gravity ≠ 0 then { b with acceleration := ⟨b.acceleration.x, b.gravity⟩ } else b
    let b2 := { b1 with velocity := b1.velocity.add ⟨b1.acceleration.x * deltaTime, b1.acceleration.y * deltaTime⟩ }
    let b3 := { b2 with velocity := b2.velocity.limit maxVelocityConfig }
    let b4 := { b3 with position := b3.position.add ⟨b3.velocity.x * deltaTime, b3.velocity.y * deltaTime⟩ }
    { b4 with acceleration := ⟨0, 0⟩ }

/-- `PhysicsSystem.areColliding` (main.js lines 83-90): centers closer than
the sum of the radii. -/
def areColliding (ballA ballB : Ball) : Prop :=
  ballA.position.distance ballB.position < ballA.size + ballB.size

/-- `Ball.isCollidingWith` (Ball.js lines 117-124), the same test duplicated
on the entity. -/
def Ball.isCollidingWith (b other : Ball) : Prop :=
  b.position.distance other.position < b.size + other.size

/-- Inner loop of `PhysicsSystem.generateCollisionPairs` (main.js lines
63-73): for a fixed `ballA`, scan the later balls, skipping frozen ones. -/
def pairsWith (ballA : Ball) (rest : List Ball) : List (Ball × Ball) :=
  rest.filterMap (fun ballB =>
    if ballB.isFrozen then none
    else if areColliding ballA ballB then some (ballA, ballB) else none)

/-- `PhysicsSystem.generateCollisionPairs` (main.js lines 53-75): iterate
`i < j`; `continue` past a frozen `ballA` (skipping its whole inner loop). -/
def generateCollisionPairs : List Ball → List (Ball × Ball)
  | [] => []
  | ballA :: rest =>
    (if ballA.isFrozen then [] else pairsWith ballA rest) ++ generateCollisionPairs rest

/-- The center-to-center vector from A to B (main.js lines 111-114). -/
def centerDelta (ballA ballB : Ball) : Vector2D :=
  ⟨ballB.position.x - ballA.position.x, ballB.position.y - ballA.position.y⟩

/-- The center distance used by `resolveCollision` (main.js line 117). -/
def collisionDistance (ballA ballB : Ball) : ℝ := (centerDelta ballA ballB).magnitude

/-- The contact normal of `resolveCollision` (main.js lines 119-125): the
arbitrary unit vector `(1, 0)` when the centers coincide, the normalized
center delta otherwise. -/
def collisionNormal (ballA ballB : Ball) : Vector2D :=
  if collisionDistance ballA ballB = 0 then ⟨1, 0⟩
  else (centerDelta ballA ballB).normalize

/-- The overlap (penetration depth) of `resolveCollision` (main.js line
128). -/
def penetrationOverlap (ballA ballB : Ball) : ℝ :=
  (ballA.size + ballB.size) - collisionDistance ballA ballB

/-- The relative velocity of B with respect to A (main.js lines 148-151),
computed once and reused by both the normal impulse and the friction
impulse. -/
def relVelocity (ballA ballB : Ball) : Vector2D :=
  ⟨ballB.velocity.x - ballA.velocity.x, ballB.velocity.y - ballA.velocity.y⟩

/-- `PhysicsSystem.resolveCollision` (main.js lines 109-200); the unused
`deltaTime` parameter is dropped.  Positional correction, then (unless both
balls are frozen or the pair is separating) the restitution impulse and the
tangential friction impulse, each applied only to non-frozen balls. -/
def resolveCollision (ballA ballB : Ball) : Ball × Ball :=
  let normal := collisionNormal ballA ballB
  let overlap := penetrationOverlap ballA ballB
  let totalMass := ballA.mass + ballB.mass
  let ratioA := ballB.mass / totalMass
  let ratioB := ballA.mass / totalMass
  let a1 := if ballA.isFrozen then ballA
    else { ballA with position := ballA.position.subtract (normal.multiply (overlap * ratioA)) }
  let b1 := if ballB.isFrozen then ballB
    else { ballB with position := ballB.position.add (normal.multiply (overlap * ratioB)) }
  if ballA.isFrozen ∧ ballB.isFrozen then (a1, b1)
  else
    let velocityAlongNormal := (relVelocity ballA ballB).dot normal
    if velocityAlongNormal > 0 then (a1, b1)
    else
      let restitution : ℝ := 0.8
      let j := (-(1 + restitution) * velocityAlongNormal) / (1 / ballA.mass + 1 / ballB.mass)
      let impulse := normal.multiply j
      let a2 := if ballA.isFrozen then a1
        else { a1 with velocity := a1.velocity.subtract (impulse.divideComponents ballA.mass) }
      let b2 := if ballB.isFrozen then b1
        else { b1 with velocity := b1.velocity.add (impulse.divideComponents ballB.mass) }
      let friction : ℝ := 0.05
      let tangent : Vector2D := ⟨-normal.y, normal.x⟩
      let velocityAlongTangent := (relVelocity ballA ballB).dot tangent
      let jt := (-velocityAlongTangent * friction) / (1 / ballA.mass + 1 / ballB.mass)
      let tangentImpulse := tangent.multiply jt
      let a3 := if ballA.isFrozen then a2
        else { a2 with velocity := a2.velocity.subtract (tangentImpulse.divideComponents ballA.mass) }
      let b3 := if ballB.isFrozen then b2
        else { b2 with velocity := b2.velocity.add (tangentImpulse.divideComponents ballB.mass) }
      (a3, b3)

/-- Canvas dimensions, the arena bounds. -/
structure Dimensions where
  width : ℝ
  height : ℝ

/-- The boundary-containment pass of `Engine.update` (Engine.js lines
71-89): per axis, clamp a ball that has crossed an arena edge back to the
boundary and reflect that velocity component with factor 0.8. -/
def containBall (b : Ball) (dims : Dimensions) : Ball :=
  let b1 :=
    if b.position.x - b.size < 0 then
      { b with position := ⟨b.size, b.position.y⟩, velocity := ⟨-b.velocity.x * 0.8, b.velocity.y⟩ }
    else if b.position.x + b.size > dims.width then
      { b with position := ⟨dims.width - b.size, b.position.y⟩, velocity := ⟨-b.velocity.x * 0.8, b.velocity.y⟩ }
    else b
  if b1.position.y - b1.size < 0 then
    { b1 with position := ⟨b1.position.x, b1.size⟩, velocity := ⟨b1.velocity.x, -b1.velocity.y * 0.8⟩ }
  else if b1.position.y + b1.size > dims.height then
    { b1 with position := ⟨b1.position.x, dims.height - b1.size⟩, velocity := ⟨b1.velocity.x, -b1.velocity.y * 0.8⟩ }
  else b1

/-- `Engine.update` (Engine.js lines 63-90): when not paused, one integration
pass over all balls followed by one boundary-containment pass.  No other
system is invoked (the engine holds no physics system; in particular no
ball-to-ball collision detection or resolution runs). -/
def engineUpdate (isPaused : Bool) (balls : List Ball) (deltaTime : ℝ)
    (dims : Dimensions) : List Ball :=
  if isPaused then balls
  else
    let updated := balls.map (fun ball => ball.update deltaTime)
    updated.map (fun ball => containBall ball dims)

/-- The bare identifier `a` evaluated by `this.acceleration.set(0, a, 0)` in
`Ball.freeze` (Ball.js line 132): no binding named `a` exists in the module
or its imports, so the scope lookup yields nothing and evaluating the
argument list throws a ReferenceError. -/
def freezeScopeA : Option ℝ := none

/-- `Ball.freeze` (Ball.js lines 129-133).  The first two statements run
(`isFrozen := true`, `velocity := (0,0)`); the third evaluates the unbound
identifier `a`, so the method ends with a thrown ReferenceError (second
component `true`) and the acceleration reset never takes effect. -/
def Ball.freeze (b : Ball) : Ball × Bool :=
  let b1 := { b with isFrozen := true }
  let b2 := { b1 with velocity := ⟨0, 0⟩ }
  match freezeScopeA with
  | none => (b2, true)
  | some av => ({ b2 with acceleration := ⟨0, av⟩ }, false)

/-- `Ball.unfreeze` (Ball.js lines 138-140): clears the flag, nothing else. -/
def Ball.unfreeze (b : Ball) : Ball := { b with isFrozen := false }

/-! Concrete bodies used in the collision and engine scenarios. -/

/-- A frozen ball of radius 10 at the origin. -/
def fzA : Ball := ⟨1, ⟨0, 0⟩, ⟨0, 0⟩, ⟨0, 0⟩, 10, 100, 0, true⟩

/-- A non-frozen ball of radius 10 overlapping `fzA` (center distance 5). -/
def fzB : Ball := ⟨2, ⟨5, 0⟩, ⟨0, 0⟩, ⟨0, 0⟩, 10, 100, 0, false⟩

/-- A ball of radius 3 at the origin. -/
def tchA : Ball := ⟨1, ⟨0, 0⟩, ⟨0, 0⟩, ⟨0, 0⟩, 3, 9, 0, false⟩

/-- A ball of radius 2 exactly touching `tchA` (center distance 5 = 3 + 2). -/
def tchB : Ball := ⟨2, ⟨5, 0⟩, ⟨0, 0⟩, ⟨0, 0⟩, 2, 4, 0, false⟩

/-- A frozen ball of radius 2 and mass 4 at the origin. -/
def frzA : Ball := ⟨1, ⟨0, 0⟩, ⟨0, 0⟩, ⟨0, 0⟩, 2, 4, 0, true⟩

/-- A moving ball of radius 2 and mass 4 at (3,0), overlapping `frzA` with
penetration depth 1. -/
def mobB : Ball := ⟨2, ⟨3, 0⟩, ⟨-1, 0⟩, ⟨0, 0⟩, 2, 4, 0, false⟩

/-- A non-frozen ball of radius 2 and mass 4 moving right. -/
def eqA : Ball := ⟨1, ⟨0, 0⟩, ⟨1, 0⟩, ⟨0, 0⟩, 2, 4, 0, false⟩

/-- A non-frozen equal-mass ball overlapping `eqA`, moving left. -/
def eqB : Ball := ⟨2, ⟨3, 0⟩, ⟨-1, 0⟩, ⟨0, 0⟩, 2, 4, 0, false⟩

/-- The boundary-bounce scenario ball: `position.x = 5`, `size = 20`,
`velocity.x = -30`, vertically well inside the arena. -/
def bndBall : Ball := ⟨1, ⟨5, 300⟩, ⟨-30, 0⟩, ⟨0, 0⟩, 20, 400, 0, false⟩

/-- An 800 × 600 arena. -/
def bndDims : Dimensions := ⟨800, 600⟩

/-- A frozen probe ball for the engine-tick scenario. -/
def engBall : Ball := ⟨1, ⟨100, 100⟩, ⟨0, 0⟩, ⟨0, 0⟩, 10, 100, 0, true⟩

/-- A second ball present in only one of two engine runs. -/
def engBall2 : Ball := ⟨2, ⟨200, 200⟩, ⟨7, 0⟩, ⟨0, 0⟩, 10, 100, 9.8, false⟩

end

/-! ## Helper lemmas -/

/-- Evaluate `Real.sqrt` at a perfect square. -/
lemma sqrt_eval {a b : ℝ} (hb : 0 ≤ b) (h : b * b = a) : Real.sqrt a = b := by
  rw [← h]
  exact Real.sqrt_mul_self hb

/-- The concrete center distance of the frozen-pair scenario. -/
lemma fz_distance : fzA.position.distance fzB.position = 5 := by
  show Real.sqrt ((0 - 5) * (0 - 5) + (0 - 0) * (0 - 0)) = 5
  exact sqrt_eval (by norm_num) (by norm_num)

/-- The concrete center distance of the exactly-touching scenario. -/
lemma tch_distance : tchA.position.distance tchB.position = 5 := by
  show Real.sqrt ((0 - 5) * (0 - 5) + (0 - 0) * (0 - 0)) = 5
  exact sqrt_eval (by norm_num) (by norm_num)

/-! ## Claim theorems -/

/-- Claim C1 — quadtree coverage (no false negatives) — FAILS on the code:
`objB` is inserted successfully (`insert` returns `true`) into the
arena-covering root, but when the next insertion subdivides the root, the
redistribution step (`insertToChildren`, which requires a child to *contain*
the object) finds no child fully containing `objB`'s boundary-straddling
AABB, so `objB` is silently dropped.  A later query with `objC`, whose AABB
coincides with `objB`'s and whose circle truly overlaps it, returns only
`objA`: an inserted body whose circle overlaps the query AABB is missing
from the result. -/
theorem quadtree_coverage_false_negative :
    (insertF 8 rootQT objB).2 = some true ∧
    circleOverlapsAABB objB objC = true ∧
    objB ∉ queryF 8 qtAfterBA objC ∧
    objA ∈ queryF 8 qtAfterBA objC := by
  decide!

/-- Claim C6, counterexample: inserting boundary-straddling `objD` into the
(already divided) tree puts it into *no* child even though the SE child's
bounds intersect its AABB, and the call returns `undefined` (`none`) rather
than the boolean required by the claimed contract ("true iff inserted into
at least one child", so `false` here). -/
theorem insert_children_contract_counterexample :
    ((insertF 8 qtAfterBA objD).1.childrenOf.getD 3 rootQT).intersectsO objD = true ∧
    objD ∉ allObjectsF 8 (insertF 8 qtAfterBA objD).1 ∧
    (insertF 8 qtAfterBA objD).2 = none := by
  decide!

/-- Claim C3 — collision detection is the strict inequality on the center
distance: `areColliding` holds iff `distance < r1 + r2`; in the boundary
case `distance = r1 + r2` the pair is not reported; and the duplicated
entity-level test `Ball.isCollidingWith` agrees. -/
theorem collision_detection_strict (ballA ballB : Ball) :
    (areColliding ballA ballB ↔
      ballA.position.distance ballB.position < ballA.size + ballB.size) ∧
    (ballA.position.distance ballB.position = ballA.size + ballB.size →
      ¬ areColliding ballA ballB) ∧
    (areColliding ballA ballB ↔ ballA.isCollidingWith ballB) := by
  refine ⟨Iff.rfl, ?_, Iff.rfl⟩
  intro h hc
  unfold areColliding at hc
  rw [h] at hc
  exact lt_irrefl _ hc

/-- Witness for `collision_detection_strict`: the exactly-touching pair
(center distance 5, radii 3 and 2) is not reported as colliding. -/
theorem collision_detection_strict_witness : ¬ areColliding tchA tchB := by
  refine (collision_detection_strict tchA tchB).2.1 ?_
  rw [tch_distance]
  norm_num [tchA, tchB]

/-- Claim C7 — `divide` by an exactly-zero scalar raises the division error
(and, the throw preceding any mutation, produces no updated vector), while
`divide` by any nonzero scalar succeeds with the component-wise quotient. -/
theorem divide_by_zero_raises (v : Vector2D) :
    v.divide 0 = Except.error "Cannot divide vector by zero" ∧
    ∀ s : ℝ, s ≠ 0 → v.divide s = Except.ok ⟨v.x / s, v.y / s⟩ := by
  constructor
  · simp [Vector2D.divide]
  · intro s hs
    simp [Vector2D.divide, hs, Vector2D.divideComponents]

/-- Witness for `divide_by_zero_raises` at the vector (3,4) and scalar 2. -/
theorem divide_by_zero_raises_witness :
    Vector2D.divide ⟨3, 4⟩ 2 = Except.ok ⟨3 / 2, 4 / 2⟩ ∧
    Vector2D.divide ⟨3, 4⟩ 0 = Except.error "Cannot divide vector by zero" :=
  ⟨(divide_by_zero_raises ⟨3, 4⟩).2 2 (by norm_num), (divide_by_zero_raises ⟨3, 4⟩).1⟩

/-- Claim C10 — `Ball.freeze` never completes normally: it sets `isFrozen`,
zeroes the velocity, then raises a ReferenceError (second component `true`)
on the unbound identifier `a`, so the acceleration reset never takes effect
(position is also untouched); `unfreeze` always succeeds and only clears the
flag. -/
theorem freeze_raises_reference_error (b : Ball) :
    (b.freeze.1.isFrozen = true ∧ b.freeze.1.velocity = ⟨0, 0⟩ ∧
      b.freeze.1.acceleration = b.acceleration ∧
      b.freeze.1.position = b.position ∧ b.freeze.2 = true) ∧
    b.unfreeze = { b with isFrozen := false } :=
  ⟨⟨rfl, rfl, rfl, rfl, rfl⟩, rfl⟩

/-- Claim C9 — noninterference of the engine tick: the ball at index `i`
after `Engine.update` is a function of that ball's own pre-tick state, the
elapsed time and the canvas dimensions only (per-ball integration followed by
wall containment; no ball-to-ball interaction), so two runs agreeing at
index `i` agree there afterwards. -/
theorem engineUpdate_per_ball (isPaused : Bool) (balls : List Ball)
    (deltaTime : ℝ) (dims : Dimensions) (i : ℕ) :
    ((engineUpdate isPaused balls deltaTime dims)[i]?
      = (balls[i]?).map
          (fun b => if isPaused then b else containBall (b.update deltaTime) dims)) ∧
    ∀ balls2 : List Ball, balls[i]? = balls2[i]? →
      (engineUpdate isPaused balls deltaTime dims)[i]?
        = (engineUpdate isPaused balls2 deltaTime dims)[i]? := by
  have key : ∀ bs : List Ball,
      (engineUpdate isPaused bs deltaTime dims)[i]?
        = (bs[i]?).map
            (fun b => if isPaused then b else containBall (b.update deltaTime) dims) := by
    intro bs
    cases isPaused with
    | true => simp [engineUpdate]
    | false => simp [engineUpdate, List.getElem?_map, Option.map_map, Function.comp_def]
  refine ⟨key balls, fun balls2 h => ?_⟩
  rw [key balls, key balls2, h]

/-- Witness for `engineUpdate_per_ball`: two runs whose ball lists agree at
index 0 (the second run has an extra ball) produce the same ball at index 0. -/
theorem engineUpdate_per_ball_witness :
    (engineUpdate false [engBall] 2 bndDims)[0]?
      = (engineUpdate false [engBall, engBall2] 2 bndDims)[0]? :=
  (engineUpdate_per_ball false [engBall] 2 bndDims 0).2 [engBall, engBall2] rfl

/-- Claim C2 — "a pair is skipped only when both bodies are frozen" — FAILS
on the code: `generateCollisionPairs` executes `continue` when the outer
ball is frozen (skipping its entire inner loop) and again when the inner
ball is frozen, so every pair containing at least one frozen ball is
dropped.  Here `fzA` (frozen) and `fzB` (not frozen) truly overlap, yet no
pair is generated in either list order, so the overlapping half-frozen pair
never reaches resolution and the frozen ball never acts as an immovable
obstacle. -/
theorem narrow_phase_skips_one_frozen :
    fzA.isFrozen = true ∧ fzB.isFrozen = false ∧
    areColliding fzA fzB ∧
    generateCollisionPairs [fzA, fzB] = [] ∧
    generateCollisionPairs [fzB, fzA] = [] := by
  refine ⟨rfl, rfl, ?_, ?_, ?_⟩
  · unfold areColliding
    rw [fz_distance]
    norm_num [fzA, fzB]
  · simp [generateCollisionPairs, pairsWith, fzA, fzB]
  · simp [generateCollisionPairs, pairsWith, fzA, fzB]

/-- Claim C8 — boundary containment: per axis, a ball that has penetrated an
arena edge has its position clamped to the boundary and the offending
velocity component reflected with factor 0.8. -/
theorem boundary_containment (b : Ball) (dims : Dimensions) :
    (b.position.x - b.size < 0 →
      (containBall b dims).position.x = b.size ∧
      (containBall b dims).velocity.x = -b.velocity.x * 0.8) ∧
    (¬ (b.position.x - b.size < 0) → b.position.x + b.size > dims.width →
      (containBall b dims).position.x = dims.width - b.size ∧
      (containBall b dims).velocity.x = -b.velocity.x * 0.8) ∧
    (b.position.y - b.size < 0 →
      (containBall b dims).position.y = b.size ∧
      (containBall b dims).velocity.y = -b.velocity.y * 0.8) ∧
    (¬ (b.position.y - b.size < 0) → b.position.y + b.size > dims.height →
      (containBall b dims).position.y = dims.height - b.size ∧
      (containBall b dims).velocity.y = -b.velocity.y * 0.8) := by
  by_cases hx1 : b.position.x - b.size < 0 <;>
    by_cases hx2 : b.position.x + b.size > dims.width <;>
      by_cases hy1 : b.position.y - b.size < 0 <;>
        by_cases hy2 : b.position.y + b.size > dims.height <;>
          simp [containBall, hx1, hx2, hy1, hy2]

/-- Witness for `boundary_containment`: the spec's concrete scenario — a
ball with `position.x = 5`, `size = 20`, `velocity.x = -30` in an arena
starting at x = 0 ends with `position.x = 20` and `velocity.x = 24`. -/
theorem boundary_containment_witness :
    (containBall bndBall bndDims).position.x = 20 ∧
    (containBall bndBall bndDims).velocity.x = 24 := by
  have h := (boundary_containment bndBall bndDims).1 (by norm_num [bndBall])
  refine ⟨?_, ?_⟩
  · rw [h.1]; rfl
  · rw [h.2]; norm_num [bndBall]

/-- Claim C6 as amended: `insert` returns `false` without mutation when the
body's AABB does not intersect the node bounds; appends and returns `true`
for a leaf with room, or at `maxDepth`; otherwise it subdivides (if not yet
divided, redistributing the held objects into the children that fully
*contain* them and emptying the object list), inserts the body into every
child whose bounds fully *contain* the body's AABB (not: intersect), and
returns `undefined` (modelled as `none`) rather than the claimed boolean. -/
theorem insert_contract_amended (f : ℕ) (bo : Rect) (cap md d : ℕ)
    (objs : List QObj) (div : Bool) (ch : List Quadtree) (o : QObj) :
    (rectIntersects bo o = false →
      insertF (f + 1) (.node bo cap md d objs div ch) o
        = (.node bo cap md d objs div ch, some false)) ∧
    (rectIntersects bo o = true → div = false → objs.length < cap →
      insertF (f + 1) (.node bo cap md d objs div ch) o
        = (.node bo cap md d (objs ++ [o]) div ch, some true)) ∧
    (rectIntersects bo o = true → ¬ (div = false ∧ objs.length < cap) → md ≤ d →
      insertF (f + 1) (.node bo cap md d objs div ch) o
        = (.node bo cap md d (objs ++ [o]) div ch, some true)) ∧
    (rectIntersects bo o = true → ¬ (div = false ∧ objs.length < cap) → d < md →
      div = true →
      insertF (f + 1) (.node bo cap md d objs div ch) o
        = (.node bo cap md d objs true (insertToChildrenF f ch o), none)) ∧
    (rectIntersects bo o = true → ¬ (div = false ∧ objs.length < cap) → d < md →
      div = false →
      insertF (f + 1) (.node bo cap md d objs div ch) o
        = (.node bo cap md d [] true
            (insertToChildrenF f
              (objs.foldl (fun cs o' => insertToChildrenF f cs o')
                (mkChildren bo cap md d)) o),
           none)) := by
  refine ⟨?_, ?_, ?_, ?_, ?_⟩
  · intro h
    simp [insertF, insertStep, h]
  · intro h hdiv hlen
    simp [insertF, insertStep, h, hdiv, hlen]
  · intro h hni hmd
    simp [insertF, insertStep, h, hni, hmd]
  · intro h hni hdm hdiv
    have hmd' : ¬ (md ≤ d) := not_le.mpr hdm
    simp [insertF, insertStep, insertToChildrenF, Quadtree.objectsOf,
      Quadtree.childrenOf, h, hni, hmd', hdiv]
  · intro h hni hdm hdiv
    have hmd' : ¬ (md ≤ d) := not_le.mpr hdm
    have hlen' : ¬ (objs.length < cap) := fun hl => hni ⟨hdiv, hl⟩
    simp [insertF, insertStep, insertToChildrenF, Quadtree.objectsOf,
      Quadtree.childrenOf, h, hmd', hdiv, hlen']

/-- Witness for `insert_contract_amended`: inserting `objA` into the empty
arena root appends it to the leaf and returns `true`. -/
theorem insert_contract_amended_witness :
    insertF 1 rootQT objA
      = (.node ⟨0, 0, 100, 100⟩ 1 5 0 [objA] false [], some true) :=
  (insert_contract_amended 0 ⟨0, 0, 100, 100⟩ 1 5 0 [] false [] objA).2.1
    (by decide!) rfl (by decide)

/-- The contact normal always has unit norm: either the `(1,0)` fallback, or
the center delta divided by its (positive) magnitude. -/
lemma collisionNormal_unit (ballA ballB : Ball) :
    (collisionNormal ballA ballB).x * (collisionNormal ballA ballB).x
      + (collisionNormal ballA ballB).y * (collisionNormal ballA ballB).y = 1 := by
  unfold collisionNormal
  by_cases h : collisionDistance ballA ballB = 0
  · rw [if_pos h]
    norm_num
  · rw [if_neg h]
    unfold Vector2D.normalize
    have h' : (centerDelta ballA ballB).magnitude ≠ 0 := h
    have hpos : (centerDelta ballA ballB).magnitude > 0 :=
      lt_of_le_of_ne (Real.sqrt_nonneg _) (Ne.symm h')
    rw [if_pos hpos]
    unfold Vector2D.divideComponents
    have hsq : (centerDelta ballA ballB).magnitude * (centerDelta ballA ballB).magnitude
        = (centerDelta ballA ballB).x * (centerDelta ballA ballB).x
          + (centerDelta ballA ballB).y * (centerDelta ballA ballB).y :=
      Real.mul_self_sqrt (add_nonneg (mul_self_nonneg _) (mul_self_nonneg _))
    field_simp
    linear_combination -hsq

/-- Center distance of the frozen/moving pair. -/
lemma cd_frz : collisionDistance frzA mobB = 3 := by
  show Real.sqrt ((3 - 0) * (3 - 0) + (0 - 0) * (0 - 0)) = 3
  exact sqrt_eval (by norm_num) (by norm_num)

/-- Contact normal of the frozen/moving pair. -/
lemma cn_frz : collisionNormal frzA mobB = ⟨1, 0⟩ := by
  unfold collisionNormal
  rw [cd_frz, if_neg (by norm_num : (3:ℝ) ≠ 0)]
  unfold Vector2D.normalize
  have hm : (centerDelta frzA mobB).magnitude = 3 := cd_frz
  rw [hm, if_pos (by norm_num : (3:ℝ) > 0)]
  unfold Vector2D.divideComponents centerDelta
  norm_num [frzA, mobB, Vector2D.mk.injEq]

/-- Penetration depth of the frozen/moving pair. -/
lemma ov_frz : penetrationOverlap frzA mobB = 1 := by
  unfold penetrationOverlap
  rw [cd_frz]
  norm_num [frzA, mobB]

/-- Center distance of the equal-mass pair. -/
lemma cd_eq : collisionDistance eqA eqB = 3 := by
  show Real.sqrt ((3 - 0) * (3 - 0) + (0 - 0) * (0 - 0)) = 3
  exact sqrt_eval (by norm_num) (by norm_num)

/-- Contact normal of the equal-mass pair. -/
lemma cn_eq : collisionNormal eqA eqB = ⟨1, 0⟩ := by
  unfold collisionNormal
  rw [cd_eq, if_neg (by norm_num : (3:ℝ) ≠ 0)]
  unfold Vector2D.normalize
  have hm : (centerDelta eqA eqB).magnitude = 3 := cd_eq
  rw [hm, if_pos (by norm_num : (3:ℝ) > 0)]
  unfold Vector2D.divideComponents centerDelta
  norm_num [eqA, eqB, Vector2D.mk.injEq]

/-- Penetration depth of the equal-mass pair. -/
lemma ov_eq : penetrationOverlap eqA eqB = 1 := by
  unfold penetrationOverlap
  rw [cd_eq]
  norm_num [eqA, eqB]

/-- Claim C4, counterexample to the "absorbing the full penetration depth"
clause: with `frzA` frozen and `mobB` free (equal masses, depth 1, normal
`(1,0)`), the frozen ball indeed does not move, but the free ball moves only
by its own proportional share `depth · massA/(massA+massB) = 1/2` — to
`x = 3 + 1/2` — not by the full depth, which would put it at `x = 3 + 1`. -/
theorem positional_correction_full_depth_counterexample :
    frzA.isFrozen = true ∧ mobB.isFrozen = false ∧
    penetrationOverlap frzA mobB = 1 ∧
    (resolveCollision frzA mobB).1.position = frzA.position ∧
    (resolveCollision frzA mobB).2.position.x = 3 + 1 / 2 ∧
    (3 + 1 / 2 : ℝ) ≠ mobB.position.x + penetrationOverlap frzA mobB := by
  have h1 : frzA.isFrozen = true := rfl
  have h2 : mobB.isFrozen = false := rfl
  have h3 : frzA.mass = 4 := rfl
  have h4 : mobB.mass = 4 := rfl
  have h6 : mobB.position = ⟨3, 0⟩ := rfl
  have h7 : frzA.velocity = ⟨0, 0⟩ := rfl
  have h8 : mobB.velocity = ⟨-1, 0⟩ := rfl
  refine ⟨h1, h2, ov_frz, ?_, ?_, ?_⟩
  · norm_num [resolveCollision, cn_frz, ov_frz, relVelocity, Vector2D.dot,
      Vector2D.add, Vector2D.multiply, h1, h2, h3, h4, h6, h7, h8]
  · norm_num [resolveCollision, cn_frz, ov_frz, relVelocity, Vector2D.dot,
      Vector2D.add, Vector2D.multiply, h1, h2, h3, h4, h6, h7, h8]
  · rw [ov_frz]
    norm_num [mobB]

/-- Claim C4 as amended: positional correction moves each *non-frozen* ball
by its own inverse-mass-proportional share of the depth (A back by
`depth · massB/(massA+massB)`, B forward by `depth · massA/(massA+massB)`
along the normal) and a frozen ball not at all; when exactly one ball is
frozen the other still moves only by its own share — the frozen ball's share
is not reassigned, so the full depth is not absorbed. -/
theorem positional_correction_proportional (ballA ballB : Ball) :
    (ballA.isFrozen = true → (resolveCollision ballA ballB).1.position = ballA.position) ∧
    (ballA.isFrozen = false →
      (resolveCollision ballA ballB).1.position
        = ballA.position.subtract
            ((collisionNormal ballA ballB).multiply
              (penetrationOverlap ballA ballB * (ballB.mass / (ballA.mass + ballB.mass))))) ∧
    (ballB.isFrozen = true → (resolveCollision ballA ballB).2.position = ballB.position) ∧
    (ballB.isFrozen = false →
      (resolveCollision ballA ballB).2.position
        = ballB.position.add
            ((collisionNormal ballA ballB).multiply
              (penetrationOverlap ballA ballB * (ballA.mass / (ballA.mass + ballB.mass))))) := by
  by_cases ha : ballA.isFrozen <;> by_cases hb : ballB.isFrozen <;>
    by_cases hv : (relVelocity ballA ballB).dot (collisionNormal ballA ballB) > 0 <;>
      simp [resolveCollision, ha, hb, hv]

/-- Witness for `positional_correction_proportional`: in the equal-mass
overlapping pair, ball A (not frozen) is pushed back by half the depth, to
`(-1/2, 0)`. -/
theorem positional_correction_proportional_witness :
    (resolveCollision eqA eqB).1.position = ⟨-(1 / 2), 0⟩ := by
  have h := (positional_correction_proportional eqA eqB).2.1 rfl
  rw [h, cn_eq, ov_eq]
  norm_num [eqA, eqB, Vector2D.subtract, Vector2D.multiply, Vector2D.mk.injEq]

/-- Claim C5 — restitution correctness: for an equal-mass, non-frozen,
approaching pair, the post-resolution relative velocity along the contact
normal is separating with magnitude `0.8` times the pre-resolution closing
magnitude; the tangential friction impulse contributes nothing along the
normal. -/
theorem restitution_normal_velocity (ballA ballB : Ball)
    (hmA : 0 < ballA.mass) (hmB : 0 < ballB.mass) (_hmeq : ballA.mass = ballB.mass)
    (ha : ballA.isFrozen = false) (hb : ballB.isFrozen = false)
    (happr : (relVelocity ballA ballB).dot (collisionNormal ballA ballB) < 0) :
    ((resolveCollision ballA ballB).2.velocity.subtract
        (resolveCollision ballA ballB).1.velocity).dot (collisionNormal ballA ballB)
      = 0.8 * (-((relVelocity ballA ballB).dot (collisionNormal ballA ballB))) := by
  have hv' : ¬ ((relVelocity ballA ballB).dot (collisionNormal ballA ballB) > 0) :=
    not_lt.mpr happr.le
  have hnn := collisionNormal_unit ballA ballB
  have hK : (1 / ballA.mass + 1 / ballB.mass) ≠ 0 :=
    ne_of_gt (add_pos (one_div_pos.mpr hmA) (one_div_pos.mpr hmB))
  simp only [resolveCollision, ha, hb, Bool.false_eq_true, false_and, if_false,
    and_self, ite_false, if_neg hv']
  simp only [relVelocity, Vector2D.add, Vector2D.subtract, Vector2D.multiply,
    Vector2D.divideComponents, Vector2D.dot]
  set nx := (collisionNormal ballA ballB).x with hnxd
  set ny := (collisionNormal ballA ballB).y with hnyd
  set vax := ballA.velocity.x with hvaxd
  set vay := ballA.velocity.y with hvayd
  set vbx := ballB.velocity.x with hvbxd
  set vby := ballB.velocity.y with hvbyd
  set mA := ballA.mass with hmAd
  set mB := ballB.mass with hmBd
  have hjinst := div_mul_cancel₀
    (-(1 + 0.8) * ((vbx - vax) * nx + (vby - vay) * ny)) hK
  linear_combination
    (-(1 + 0.8) * ((vbx - vax) * nx + (vby - vay) * ny) / (1 / mA + 1 / mB)
      * (1 / mA + 1 / mB)) * hnn + hjinst

/-- Witness for `restitution_normal_velocity`: the equal-mass pair closing
at relative normal speed 2 separates at `0.8 × 2 = 1.6`. -/
theorem restitution_normal_velocity_witness :
    ((resolveCollision eqA eqB).2.velocity.subtract
        (resolveCollision eqA eqB).1.velocity).dot (collisionNormal eqA eqB)
      = 0.8 * 2 := by
  have hvan : (relVelocity eqA eqB).dot (collisionNormal eqA eqB) = -2 := by
    rw [cn_eq]
    unfold relVelocity Vector2D.dot
    norm_num [eqA, eqB]
  have h := restitution_normal_velocity eqA eqB
    (by norm_num [eqA]) (by norm_num [eqB]) rfl rfl rfl
    (by rw [hvan]; norm_num)
  rw [h, hvan]
  norm_num
